import Mathlib

/-!
Shallow embedding of `src/source/BaseGame.cpp` from the RadixEngine
repository: the world lifecycle operations (`setWorld`, `createWorld`,
`switchToOtherWorld`, `cleanUp`) and the frame-cycle phase functions
(`preCycle`, `update`, `render`/`prepareCamera`, `postCycle`,
`deferPostCycle`), together with theorems settling the behavioural claims
about them.

Lifecycle hooks, `World` callbacks and collaborator calls (renderer draw,
sound, window) are recorded as events in a trace, so ordering properties
are stated as facts about the produced event list.
-/

namespace RadixEngine

/-- The engine's `Vector3f`, with exact rationals standing in for the float
components (the embedded code only adds components and halves one). -/
structure Vec3 where
  x : Rat
  y : Rat
  z : Rat
deriving DecidableEq, Repr

/-- Componentwise `Vector3f` addition (`player.getPosition() + headOffset`). -/
def Vec3.add (a b : Vec3) : Vec3 :=
  ⟨a.x + b.x, a.y + b.y, a.z + b.z⟩

/-- The camera state written by `BaseGame::prepareCamera`. -/
structure Camera where
  perspective : Bool
  aspect : Rat
  position : Vec3
  orientation : Nat
deriving DecidableEq, Repr

/-- The `entities::Player` fields read by `prepareCamera`. -/
structure PlayerEnt where
  position : Vec3
  scale : Vec3
  headOrientation : Nat
deriving DecidableEq, Repr

/-- The two standard simulations `BaseGame::createWorld` registers. -/
inductive SimKind where
  | player
  | physics
deriving DecidableEq, Repr

/-- The facets of `radix::World` that `BaseGame.cpp` touches. `id`
identifies the instance, so trace events can say which World a callback hit;
`sims` is the simulation list visible to iteration; `updates` logs the
`TimeDelta::msec` values passed to `World::update`. -/
structure World where
  id : Nat
  camera : Camera
  player : PlayerEnt
  sims : List SimKind
  configSet : Bool
  playerInit : Bool
  updates : List Int
deriving DecidableEq, Repr

/-- A deferred task (`std::function<void()>`): an identifier to recognise its
invocation in the trace, and whether invoking it throws. -/
structure Task where
  tid : Nat
  throws : Bool
deriving DecidableEq, Repr

/-- Observable lifecycle events, one per hook / callback / collaborator call
in `BaseGame.cpp`, named after the source call sites. -/
inductive Ev where
  | preStopHook
  | onStop (wid : Nat)
  | postStopHook
  | preDestroyHook (wid : Nat)
  | onDestroy (wid : Nat)
  | postDestroyHook (wid : Nat)
  | buildRenderer (wid : Nat)
  | rendererSetViewport
  | rendererInit
  | inputManagerInit
  | preStartHook
  | onStart (wid : Nat)
  | postStartHook
  | preCreateHook (wid : Nat)
  | applyConfig (wid : Nat)
  | onCreate (wid : Nat)
  | simRegister (k : SimKind)
  | simCommit (ks : List SimKind)
  | initPlayer (wid : Nat)
  | postCreateHook (wid : Nat)
deriving DecidableEq, Repr

/-- The start-phase events of `BaseGame::setWorld` (renderer rebuild, input
re-initialisation, start hooks). -/
def Ev.isStart : Ev → Bool
  | .buildRenderer _ => true
  | .rendererSetViewport => true
  | .rendererInit => true
  | .inputManagerInit => true
  | .preStartHook => true
  | .onStart _ => true
  | .postStartHook => true
  | _ => false

/-- The `BaseGame` members read or written by the embedded functions.
`world` is the owning `unique_ptr<World>`; `otherWorlds` the
`map<string, unique_ptr<World>>` (a stored pointer may be null, hence
`Option World` values); `rendererWorld`/`rendererGen` record which World the
current Renderer was built for and how many Renderers have been constructed;
`inputManagerInits` counts `inputManager->init()` calls. The timestamp
fields are declared in `BaseGame.hpp`, which is not part of `src/`; they are
modelled from the spec as unbounded integers with the unclamped subtraction
`elapsed = now - lastUpdate`. -/
structure GameState where
  world : Option World
  otherWorlds : List (String × Option World)
  postCycleDeferred : List Task
  lastUpdate : Int
  currentTime : Int
  lastRender : Int
  rendererWorld : Option Nat
  rendererGen : Nat
  inputManagerInits : Nat
  windowOpen : Bool
  closed : Bool
deriving DecidableEq, Repr

/-- `BaseGame::deferPostCycle`: `postCycleDeferred.push_back(deferred)`. -/
def deferPostCycle (s : GameState) (t : Task) : GameState :=
  { s with postCycleDeferred := s.postCycleDeferred ++ [t] }

/-- The `for (auto deferred : postCycleDeferred) deferred();` loop: the ids
invoked, in order, and whether the loop ran to completion (`false` as soon as
a task throws, in which case the tasks after it are never invoked). -/
def runDeferred : List Task → List Nat × Bool
  | [] => ([], true)
  | t :: ts =>
    if t.throws then ([t.tid], false)
    else
      let r := runDeferred ts
      (t.tid :: r.1, r.2)

/-- `BaseGame::postCycle`: when the queue is non-empty, run the tasks and,
if the loop completes, `postCycleDeferred.clear()`. When a task throws, the
exception propagates out of the loop before `clear()` is reached, so the
queue keeps all of its contents. Returns the new state, the invocation trace
and whether the drain completed without a throw. -/
def postCycle (s : GameState) : GameState × List Nat × Bool :=
  if s.postCycleDeferred.length > 0 then
    let r := runDeferred s.postCycleDeferred
    if r.2 then ({ s with postCycleDeferred := [] }, r.1, true)
    else (s, r.1, false)
  else (s, [], true)

/-- `BaseGame::preCycle`: `window.processEvents()` acts only on collaborators
outside the embedded state. -/
def preCycle (s : GameState) : GameState := s

/-- `BaseGame::update`: poll the clock (`currentTime = SDL_GetTicks()`),
compute the unclamped `elapsedTime = currentTime - lastUpdate`, advance the
World by it (`SoundManager::update` touches no `BaseGame` member), then
`lastUpdate = currentTime`. `none` when no World is active (the C++
dereferences `world` unconditionally). -/
def update (s : GameState) (now : Int) : Option GameState :=
  match s.world with
  | none => none
  | some w =>
    let elapsedTime := now - s.lastUpdate
    some { s with currentTime := now,
                  world := some { w with updates := w.updates ++ [elapsedTime] },
                  lastUpdate := now }

/-- `BaseGame::prepareCamera`: `setPerspective()`, aspect from the window's
reported viewport size, position at the player plus a head offset of half the
player's y scale, orientation from the player's head orientation. -/
def prepareCamera (s : GameState) (viewportWidth viewportHeight : Int) :
    Option GameState :=
  match s.world with
  | none => none
  | some w =>
    let headOffset : Vec3 := ⟨0, w.player.scale.y / 2, 0⟩
    let cam := { w.camera with
      perspective := true
      aspect := (viewportWidth : Rat) / (viewportHeight : Rat)
      position := w.player.position.add headOffset
      orientation := w.player.headOrientation }
    some { s with world := some { w with camera := cam } }

/-- `BaseGame::render`: `prepareCamera()`, the draw calls
(`renderer->render()`, `imguiRenderer->render()`, screens clear, fps count,
`window.swapBuffers()` — all on collaborators outside the embedded state),
then `lastRender = currentTime`; no fresh clock poll happens here. -/
def render (s : GameState) (viewportWidth viewportHeight : Int) :
    Option GameState :=
  (prepareCamera s viewportWidth viewportHeight).map fun s1 =>
    { s1 with lastRender := s1.currentTime }

/-- The retirement events of `BaseGame::setWorld`, in source order. -/
def retireEvents (w : World) : List Ev :=
  [.preStopHook, .onStop w.id, .postStopHook,
   .preDestroyHook w.id, .onDestroy w.id, .postDestroyHook w.id]

/-- The start-up events of `BaseGame::setWorld`, in source order. -/
def startEvents (w : World) : List Ev :=
  [.buildRenderer w.id, .rendererSetViewport, .rendererInit,
   .inputManagerInit, .preStartHook, .onStart w.id, .postStartHook]

/-- `BaseGame::setWorld`: if a World is active, retire it (stop hooks, then
destroy hooks); move `newWorld` in; if non-null, construct a new Renderer for
it, set its viewport, init it, re-init the InputManager, and run the start
hooks. -/
def setWorld (s : GameState) (newWorld : Option World) :
    GameState × List Ev :=
  let retire := match s.world with
    | some w => retireEvents w
    | none => []
  let s1 := { s with world := newWorld }
  match newWorld with
  | some w =>
    ({ s1 with rendererWorld := some w.id,
               rendererGen := s1.rendererGen + 1,
               inputManagerInits := s1.inputManagerInits + 1 },
     retire ++ startEvents w)
  | none => (s1, retire)

/-- `otherWorlds.find(name)`: the stored pointer (possibly null) of the first
entry under `name`, or `none` when the name is absent. -/
def findWorld : List (String × Option World) → String → Option (Option World)
  | [], _ => none
  | (k, v) :: rest, name => if k = name then some v else findWorld rest name

/-- The registry after `std::move(it->second)`: the entry under `name` stays
in the map, its `unique_ptr` becomes null. -/
def moveOutWorld (l : List (String × Option World)) (name : String) :
    List (String × Option World) :=
  l.map fun p => if p.1 = name then (p.1, none) else p

/-- `otherWorlds.erase(it)`: drop the (first) entry under `name`. -/
def eraseWorld : List (String × Option World) → String →
    List (String × Option World)
  | [], _ => []
  | (k, v) :: rest, name =>
    if k = name then rest else (k, v) :: eraseWorld rest name

/-- `BaseGame::switchToOtherWorld`: look `name` up, throwing
`std::out_of_range("No other world by this name")` when absent — the error
carries the object state as it stands at the throw, which is the unmodified
pre-call state; on success, hand the moved-out World to `setWorld` (the
emptied entry still sits in the map at that point) and erase the entry only
afterwards. -/
def switchToOtherWorld (s : GameState) (name : String) :
    Except (String × GameState) (GameState × List Ev) :=
  match findWorld s.otherWorlds name with
  | none => .error ("No other world by this name", s)
  | some moved =>
    let s1 := { s with otherWorlds := moveOutWorld s.otherWorlds name }
    let p := setWorld s1 moved
    .ok ({ p.1 with otherWorlds := eraseWorld p.1.otherWorlds name }, p.2)

/-- `BaseGame::clearOtherWorldList`: `otherWorlds.clear()`. -/
def clearOtherWorldList (s : GameState) : GameState :=
  { s with otherWorlds := [] }

/-- `SimulationManager::Transaction`: buffered simulation additions,
committed to the World's simulation list when the scope closes. -/
structure Transaction where
  pending : List SimKind
deriving DecidableEq, Repr

/-- `Transaction::addSimulation<T>(...)`: buffer one simulation. -/
def Transaction.addSimulation (t : Transaction) (k : SimKind) : Transaction :=
  { pending := t.pending ++ [k] }

/-- Commit on scope exit: the buffered simulations become visible at once,
appended in registration order. -/
def Transaction.commit (t : Transaction) (w : World) : World :=
  { w with sims := w.sims ++ t.pending }

/-- The World as it stands inside `BaseGame::createWorld` from `onCreate`
until the transaction scope closes: config applied, nothing committed to the
simulation list yet. -/
def createWorldPreCommit (w : World) : World :=
  { w with configSet := true }

/-- `BaseGame::createWorld`, with its event trace accumulated in source
order: `onPreCreateWorld`, `setConfig`, `onCreate`, the transaction block
registering the player simulation then the physics simulation, the commit at
scope exit, `initPlayer`, `onPostCreateWorld`. -/
def createWorld (w : World) : World × List Ev :=
  let e0 := [Ev.preCreateHook w.id]
  let w1 := createWorldPreCommit w
  let e1 := e0 ++ [Ev.applyConfig w.id, Ev.onCreate w.id]
  let t0 : Transaction := ⟨[]⟩
  let t1 := t0.addSimulation .player
  let e2 := e1 ++ [Ev.simRegister .player]
  let t2 := t1.addSimulation .physics
  let e3 := e2 ++ [Ev.simRegister .physics]
  let w2 := t2.commit w1
  let e4 := e3 ++ [Ev.simCommit t2.pending]
  let w3 := { w2 with playerInit := true }
  let e5 := e4 ++ [Ev.initPlayer w.id]
  (w3, e5 ++ [Ev.postCreateHook w.id])

/-- `BaseGame::cleanUp`: `removeHook()` (empty default), `setWorld({})`,
`window.close()`; the trailing scripting demo touches none of the embedded
state. -/
def cleanUp (s : GameState) : GameState × List Ev :=
  let p := setWorld s none
  ({ p.1 with windowOpen := false }, p.2)

/-- `BaseGame::close`: `closed = true`. -/
def close (s : GameState) : GameState :=
  { s with closed := true }

/-- Modelled from the spec: the outer frame-loop driver — one iteration runs
`preCycle`, `update`, `render`, `postCycle`, in that order — is not part of
`src/`; only the four phase member functions are. Returns the end-of-
iteration state together with `postCycle`'s invocation trace and completion
flag. -/
def loopIteration (s : GameState) (now viewportWidth viewportHeight : Int) :
    Option (GameState × List Nat × Bool) :=
  match update (preCycle s) now with
  | none => none
  | some s1 =>
    match render s1 viewportWidth viewportHeight with
    | none => none
    | some s2 => some (postCycle s2)

/-! Concrete states used by witnesses and counterexamples. -/

/-- A concrete camera. -/
def sampleCamera : Camera := ⟨false, 1, ⟨0, 0, 0⟩, 0⟩

/-- A concrete player entity at position (1, 2, 3) with y scale 4. -/
def samplePlayer : PlayerEnt := ⟨⟨1, 2, 3⟩, ⟨1, 4, 1⟩, 9⟩

/-- A concrete active World. -/
def sampleWorld : World := ⟨1, sampleCamera, samplePlayer, [], false, false, []⟩

/-- A concrete cached World, registered under "alt". -/
def sampleWorld2 : World := { sampleWorld with id := 2 }

/-- A concrete game state: `sampleWorld` active, `sampleWorld2` cached under
"alt", two non-throwing deferred tasks queued, `lastUpdate = 7`. -/
def sampleState : GameState :=
  { world := some sampleWorld,
    otherWorlds := [("alt", some sampleWorld2)],
    postCycleDeferred := [⟨0, false⟩, ⟨1, false⟩],
    lastUpdate := 7,
    currentTime := 7,
    lastRender := 0,
    rendererWorld := some 1,
    rendererGen := 1,
    inputManagerInits := 1,
    windowOpen := true,
    closed := false }

/-- `sampleState` with the first queued task throwing. -/
def throwState : GameState :=
  { sampleState with postCycleDeferred := [⟨0, true⟩, ⟨1, false⟩] }

/-! Shared lemmas. -/

/-- A queue of non-throwing tasks is drained to completion, invoking every
task in order. -/
theorem runDeferred_all_ok (l : List Task)
    (h : ∀ t ∈ l, t.throws = false) :
    runDeferred l = (l.map Task.tid, true) := by
  induction l with
  | nil => rfl
  | cons t ts ih =>
    have ht : t.throws = false := h t (List.mem_cons_self t ts)
    have hts : ∀ u ∈ ts, u.throws = false :=
      fun u hu => h u (List.mem_cons_of_mem t hu)
    simp [runDeferred, ht, ih hts]

/-- `postCycle` on a queue of non-throwing tasks: every task invoked once in
queue order, queue cleared. -/
theorem postCycle_all_ok (s : GameState)
    (h : ∀ t ∈ s.postCycleDeferred, t.throws = false) :
    postCycle s
      = ({ s with postCycleDeferred := [] },
         s.postCycleDeferred.map Task.tid, true) := by
  cases hq : s.postCycleDeferred with
  | nil =>
    have hs : { s with postCycleDeferred := ([] : List Task) } = s := by
      cases s
      simp_all
    simp [postCycle, hq, hs]
  | cons a as =>
    have hok : ∀ t ∈ s.postCycleDeferred, t.throws = false := h
    rw [hq] at hok
    simp [postCycle, hq, runDeferred_all_ok _ hok]

/-- `setWorld` never touches the world registry. -/
theorem setWorld_otherWorlds (s : GameState) (nw : Option World) :
    (setWorld s nw).1.otherWorlds = s.otherWorlds := by
  cases h : s.world <;> cases nw <;> simp [setWorld, h]

/-- `moveOutWorld` preserves the registry's keys. -/
theorem map_fst_moveOutWorld (l : List (String × Option World))
    (name : String) :
    (moveOutWorld l name).map Prod.fst = l.map Prod.fst := by
  induction l with
  | nil => rfl
  | cons p rest ih =>
    simp only [moveOutWorld, List.map_cons] at ih ⊢
    rw [show (if p.1 = name then (p.1, (none : Option World)) else p).1 = p.1
          from by split <;> rfl, ih]

/-- Lookup of a name that is not among the keys fails. -/
theorem findWorld_eq_none_of_not_mem (l : List (String × Option World))
    (name : String) (h : name ∉ l.map Prod.fst) :
    findWorld l name = none := by
  induction l with
  | nil => rfl
  | cons p rest ih =>
    simp only [List.map_cons, List.mem_cons, not_or] at h
    have hne : p.1 ≠ name := fun e => h.1 e.symm
    simpa [findWorld, hne] using ih h.2

/-- With unique keys, erasing a name removes it from lookup entirely. -/
theorem findWorld_eraseWorld (l : List (String × Option World))
    (name : String) (h : (l.map Prod.fst).Nodup) :
    findWorld (eraseWorld l name) name = none := by
  induction l with
  | nil => rfl
  | cons p rest ih =>
    simp only [List.map_cons, List.nodup_cons] at h
    by_cases hp : p.1 = name
    · rw [eraseWorld, if_pos hp]
      exact findWorld_eq_none_of_not_mem rest name (hp ▸ h.1)
    · rw [eraseWorld, if_neg hp]
      simpa [findWorld, hp] using ih h.2

/-- Moving a present entry's World out leaves an entry holding a null
pointer under the same name. -/
theorem findWorld_moveOutWorld (l : List (String × Option World))
    (name : String) (v : Option World) (h : findWorld l name = some v) :
    findWorld (moveOutWorld l name) name = some none := by
  induction l with
  | nil => simp [findWorld] at h
  | cons p rest ih =>
    obtain ⟨k, w⟩ := p
    simp only [moveOutWorld, List.map_cons] at ih ⊢
    by_cases hp : k = name
    · rw [if_pos hp, findWorld, if_pos hp]
    · rw [if_neg hp, findWorld, if_neg hp]
      rw [findWorld, if_neg hp] at h
      exact ih h

/-- `setWorld` installs exactly the World it was handed. -/
theorem setWorld_world (s : GameState) (nw : Option World) :
    (setWorld s nw).1.world = nw := by
  cases h : s.world <;> cases nw <;> simp [setWorld, h]

/-- The event trace of `setWorld` swapping one World for another. -/
theorem setWorld_events_some (s : GameState) (oldW nw : World)
    (h : s.world = some oldW) :
    (setWorld s (some nw)).2 = retireEvents oldW ++ startEvents nw := by
  simp [setWorld, h]

/-- One frame-loop iteration on a state with an active World runs to
`postCycle`, and neither update nor render touches the deferred queue. -/
theorem loopIteration_shape (s : GameState) (w : World) (now vw vh : Int)
    (hw : s.world = some w) :
    ∃ s2, loopIteration s now vw vh = some (postCycle s2) ∧
      s2.postCycleDeferred = s.postCycleDeferred := by
  simp only [loopIteration, preCycle, update, hw, render, prepareCamera,
    Option.map_some]
  exact ⟨_, rfl, rfl⟩

/-! Claim theorems. -/

/-- C2: `switchToOtherWorld` on a name absent from `otherWorlds` fails with
the out-of-range condition; the state carried at the throw is exactly the
pre-call state — registry contents and active World untouched. -/
theorem c2_absent_name (s : GameState) (name : String)
    (h : findWorld s.otherWorlds name = none) :
    switchToOtherWorld s name
      = .error ("No other world by this name", s) := by
  simp [switchToOtherWorld, h]

/-- C2 witness: switching `sampleState` to the unregistered name "nope". -/
theorem c2_absent_name_witness :
    findWorld sampleState.otherWorlds "nope" = none ∧
    switchToOtherWorld sampleState "nope"
      = .error ("No other world by this name", sampleState) :=
  ⟨by simp [sampleState, findWorld],
   c2_absent_name sampleState "nope" (by simp [sampleState, findWorld])⟩

/-- C4: `setWorld` with an active World and a non-null new World emits the
retirement sequence (pre-stop hook, onStop, post-stop hook, pre-destroy
hook, onDestroy, post-destroy hook) strictly before every start-side event;
then a new Renderer is built for the new World, the InputManager is
re-initialised, and the pre-start hook, onStart and post-start hook run, in
that order. -/
theorem c4_setWorld_order (s : GameState) (oldW newW : World)
    (h : s.world = some oldW) :
    (setWorld s (some newW)).2 = retireEvents oldW ++ startEvents newW ∧
    (setWorld s (some newW)).1.world = some newW ∧
    (setWorld s (some newW)).1.rendererWorld = some newW.id ∧
    (setWorld s (some newW)).1.rendererGen = s.rendererGen + 1 ∧
    (setWorld s (some newW)).1.inputManagerInits
      = s.inputManagerInits + 1 := by
  simp [setWorld, h]

/-- C4 witness: `sampleState` swapping `sampleWorld` out for `sampleWorld2`. -/
theorem c4_setWorld_order_witness :
    sampleState.world = some sampleWorld ∧
    ((setWorld sampleState (some sampleWorld2)).2
        = retireEvents sampleWorld ++ startEvents sampleWorld2 ∧
      (setWorld sampleState (some sampleWorld2)).1.world = some sampleWorld2 ∧
      (setWorld sampleState (some sampleWorld2)).1.rendererWorld
        = some sampleWorld2.id ∧
      (setWorld sampleState (some sampleWorld2)).1.rendererGen
        = sampleState.rendererGen + 1 ∧
      (setWorld sampleState (some sampleWorld2)).1.inputManagerInits
        = sampleState.inputManagerInits + 1) :=
  ⟨rfl, c4_setWorld_order sampleState sampleWorld sampleWorld2 rfl⟩

/-- C5: `createWorld` performs, in exact order: pre-create hook, config
application, onCreate, registration of the player-control simulation before
the physics simulation inside the transaction, the commit making both
visible, player entity initialisation, post-create hook. Before the commit
the World's simulation list is untouched; after, it ends with the player
simulation followed by the physics simulation. -/
theorem c5_createWorld_order (w : World) :
    (createWorld w).2
      = [.preCreateHook w.id, .applyConfig w.id, .onCreate w.id,
         .simRegister .player, .simRegister .physics,
         .simCommit [.player, .physics],
         .initPlayer w.id, .postCreateHook w.id] ∧
    (createWorldPreCommit w).sims = w.sims ∧
    (createWorld w).1.sims = w.sims ++ [.player, .physics] ∧
    (createWorld w).1.configSet = true ∧
    (createWorld w).1.playerInit = true :=
  ⟨rfl, rfl, rfl, rfl, rfl⟩

/-- C7: with stored `lastUpdate = T0` and a clock poll returning `T1`, the
update phase advances the World by exactly `T1 - T0` — unclamped, zero when
`T1 = T0` — and stores `T1` as the new `lastUpdate`. -/
theorem c7_update_elapsed (s : GameState) (w : World) (t1 : Int)
    (h : s.world = some w) :
    ((update s t1).bind fun s1 => s1.world.map fun w1 => w1.updates)
      = some (w.updates ++ [t1 - s.lastUpdate]) ∧
    ((update s t1).map fun s1 => s1.lastUpdate) = some t1 := by
  simp [update, h]

/-- C7 witness: `sampleState` has `lastUpdate = 7`; polling 7 again advances
the World by exactly 0, and polling a far-future 1000007 advances it by
exactly 1000000. -/
theorem c7_update_elapsed_witness :
    sampleState.world = some sampleWorld ∧
    (((update sampleState 7).bind fun s1 =>
        s1.world.map fun w1 => w1.updates)
      = some (sampleWorld.updates ++ [7 - sampleState.lastUpdate]) ∧
     ((update sampleState 7).map fun s1 => s1.lastUpdate) = some 7) ∧
    (((update sampleState 1000007).bind fun s1 =>
        s1.world.map fun w1 => w1.updates)
      = some (sampleWorld.updates ++ [1000007 - sampleState.lastUpdate]) ∧
     ((update sampleState 1000007).map fun s1 => s1.lastUpdate)
      = some 1000007) :=
  ⟨rfl, c7_update_elapsed sampleState sampleWorld 7 rfl,
    c7_update_elapsed sampleState sampleWorld 1000007 rfl⟩

/-- C8: after render, the camera's position is the player's position plus a
vertical offset of half the player's y scale along the y axis, and the
camera's aspect is the reported viewport width divided by its height. -/
theorem c8_camera (s : GameState) (w : World) (vw vh : Int)
    (h : s.world = some w) :
    ((render s vw vh).bind fun s1 => s1.world.map fun w1 =>
        w1.camera.position)
      = some (w.player.position.add ⟨0, w.player.scale.y / 2, 0⟩) ∧
    ((render s vw vh).bind fun s1 => s1.world.map fun w1 => w1.camera.aspect)
      = some ((vw : Rat) / (vh : Rat)) := by
  simp [render, prepareCamera, h]

/-- C8 witness: rendering `sampleState` in a 4×3 viewport puts the camera at
(1, 4, 3) — the player's (1, 2, 3) plus half its y scale 4 — with aspect
4/3. -/
theorem c8_camera_witness :
    sampleState.world = some sampleWorld ∧
    (((render sampleState 4 3).bind fun s1 => s1.world.map fun w1 =>
        w1.camera.position)
      = some (sampleWorld.player.position.add
          ⟨0, sampleWorld.player.scale.y / 2, 0⟩) ∧
     ((render sampleState 4 3).bind fun s1 => s1.world.map fun w1 =>
        w1.camera.aspect)
      = some ((4 : Rat) / (3 : Rat))) :=
  ⟨rfl, c8_camera sampleState sampleWorld 4 3 rfl⟩

/-- C9: `setWorld` with a null new World while a World is active runs the
full retirement sequence and nothing else — no start-side event at all —
and leaves no active World while the renderer and input-manager state is
unchanged; `cleanUp` tears down through exactly this path. -/
theorem c9_teardown (s : GameState) (w : World) (h : s.world = some w) :
    (setWorld s none).2 = retireEvents w ∧
    (setWorld s none).1.world = none ∧
    (setWorld s none).1.rendererWorld = s.rendererWorld ∧
    (setWorld s none).1.rendererGen = s.rendererGen ∧
    (setWorld s none).1.inputManagerInits = s.inputManagerInits ∧
    ((setWorld s none).2.all fun e => ! e.isStart) = true ∧
    (cleanUp s).1.world = none ∧
    (cleanUp s).2 = retireEvents w := by
  simp [setWorld, cleanUp, h, retireEvents, Ev.isStart]

/-- C9 witness: tearing down `sampleState`. -/
theorem c9_teardown_witness :
    sampleState.world = some sampleWorld ∧
    ((setWorld sampleState none).2 = retireEvents sampleWorld ∧
     (setWorld sampleState none).1.world = none ∧
     (setWorld sampleState none).1.rendererWorld = sampleState.rendererWorld ∧
     (setWorld sampleState none).1.rendererGen = sampleState.rendererGen ∧
     (setWorld sampleState none).1.inputManagerInits
       = sampleState.inputManagerInits ∧
     ((setWorld sampleState none).2.all fun e => ! e.isStart) = true ∧
     (cleanUp sampleState).1.world = none ∧
     (cleanUp sampleState).2 = retireEvents sampleWorld) :=
  ⟨rfl, c9_teardown sampleState sampleWorld rfl⟩

/-- C10: the render phase polls no clock — after an update that polled `t`
and the same iteration's render, `lastRender` equals that very `t` (the
`currentTime` recorded by update), not a fresh reading. -/
theorem c10_lastRender (s : GameState) (w : World) (t vw vh : Int)
    (h : s.world = some w) :
    (((update s t).bind fun s1 => render s1 vw vh).map fun s2 =>
        s2.lastRender) = some t ∧
    (((update s t).bind fun s1 => render s1 vw vh).map fun s2 =>
        s2.currentTime) = some t := by
  simp [update, render, prepareCamera, h]

/-- C10 witness: updating `sampleState` at poll 42 then rendering leaves
`lastRender = currentTime = 42`. -/
theorem c10_lastRender_witness :
    sampleState.world = some sampleWorld ∧
    ((((update sampleState 42).bind fun s1 => render s1 4 3).map fun s2 =>
        s2.lastRender) = some 42 ∧
     (((update sampleState 42).bind fun s1 => render s1 4 3).map fun s2 =>
        s2.currentTime) = some 42) :=
  ⟨rfl, c10_lastRender sampleState sampleWorld 42 4 3 rfl⟩

/-- C1 counterexample: `throwState` queues two tasks (ids 0 and 1) of which
the first throws. That iteration's postCycle invokes only task 0 — not each
of the two tasks — and, because the exception leaves the loop before
`clear()`, both tasks remain queued: the residual count is 2, not 0. -/
theorem c1_postCycle_counterexample :
    ((loopIteration throwState 9 4 3).map fun r => r.2.1) = some [0] ∧
    ((loopIteration throwState 9 4 3).map fun r =>
        r.1.postCycleDeferred.length) = some 2 ∧
    ((loopIteration throwState 9 4 3).map fun r =>
        r.1.postCycleDeferred.length) ≠ some 0 :=
  ⟨rfl, rfl, by decide⟩

/-- C1 (amended): in an iteration none of whose queued deferred tasks
throws, the postCycle phase — which runs after render of the same iteration
— invokes each queued task exactly once, in enqueue (FIFO) order, and clears
the queue, so zero residual tasks remain at the start of the next iteration.
(When a task throws, it and its predecessors have run exactly once, the
later tasks are never invoked, and the queue keeps its contents while the
exception propagates.) -/
theorem c1_postCycle_amended (s : GameState) (w : World) (now vw vh : Int)
    (hw : s.world = some w)
    (hok : ∀ t ∈ s.postCycleDeferred, t.throws = false) :
    ((loopIteration s now vw vh).map fun r => r.2.1)
      = some (s.postCycleDeferred.map Task.tid) ∧
    ((loopIteration s now vw vh).map fun r => r.1.postCycleDeferred)
      = some [] := by
  obtain ⟨s2, h2, hq⟩ := loopIteration_shape s w now vw vh hw
  rw [h2, postCycle_all_ok s2 (by rw [hq]; exact hok)]
  simp [hq]

/-- C1 witness: the two non-throwing tasks of `sampleState` are invoked as
[0, 1] and the queue ends empty. -/
theorem c1_postCycle_amended_witness :
    sampleState.world = some sampleWorld ∧
    (sampleState.postCycleDeferred.all fun t => ! t.throws) = true ∧
    (((loopIteration sampleState 9 4 3).map fun r => r.2.1)
        = some (sampleState.postCycleDeferred.map Task.tid) ∧
     ((loopIteration sampleState 9 4 3).map fun r => r.1.postCycleDeferred)
        = some []) :=
  ⟨rfl, by decide,
   c1_postCycle_amended sampleState sampleWorld 9 4 3 rfl (by decide)⟩

/-- C3: switching to a name present in the registry erases that entry (no
lookup under the name succeeds afterwards), installs the cached World as the
sole active one, and the event trace retires the previously active World —
its onStop and onDestroy included — strictly before the new World's onStart:
the trace is exactly the retirement events followed by the start events. -/
theorem c3_present_name (s : GameState) (w oldW : World) (name : String)
    (hkeys : (s.otherWorlds.map Prod.fst).Nodup)
    (hfind : findWorld s.otherWorlds name = some (some w))
    (hold : s.world = some oldW) :
    ((switchToOtherWorld s name).toOption.map fun p =>
        findWorld p.1.otherWorlds name) = some none ∧
    ((switchToOtherWorld s name).toOption.map fun p => p.1.world)
      = some (some w) ∧
    ((switchToOtherWorld s name).toOption.map fun p => p.2)
      = some (retireEvents oldW ++ startEvents w) := by
  have hkeys2 : ((moveOutWorld s.otherWorlds name).map Prod.fst).Nodup := by
    rw [map_fst_moveOutWorld]
    exact hkeys
  have hold2 : ({ s with otherWorlds := moveOutWorld s.otherWorlds name }
      : GameState).world = some oldW := hold
  refine ⟨?_, ?_, ?_⟩ <;>
    simp [switchToOtherWorld, hfind, Except.toOption, setWorld_otherWorlds,
      setWorld_world, setWorld_events_some _ oldW w hold2,
      findWorld_eraseWorld _ _ hkeys2]

/-- C3 witness: switching `sampleState` to the cached "alt" World. -/
theorem c3_present_name_witness :
    (sampleState.otherWorlds.map Prod.fst).Nodup ∧
    findWorld sampleState.otherWorlds "alt" = some (some sampleWorld2) ∧
    sampleState.world = some sampleWorld ∧
    (((switchToOtherWorld sampleState "alt").toOption.map fun p =>
        findWorld p.1.otherWorlds "alt") = some none ∧
     ((switchToOtherWorld sampleState "alt").toOption.map fun p => p.1.world)
        = some (some sampleWorld2) ∧
     ((switchToOtherWorld sampleState "alt").toOption.map fun p => p.2)
        = some (retireEvents sampleWorld ++ startEvents sampleWorld2)) :=
  ⟨by simp [sampleState], by simp [sampleState, findWorld], rfl,
   c3_present_name sampleState sampleWorld2 sampleWorld "alt"
     (by simp [sampleState]) (by simp [sampleState, findWorld]) rfl⟩

/-- C6 counterexample: switching `sampleState` to "alt" hands the World to
`setWorld` while the registry still holds the entry under "alt" (its pointer
emptied by the move), and the entry is still there when `setWorld` returns —
it is erased only afterwards. So it is false that the entry is removed first
and that at no point during activation the registry contains an entry under
that name; `{ sampleState with otherWorlds := moveOutWorld … }` is, by the
definition of `switchToOtherWorld`, exactly the state `setWorld` runs on. -/
theorem c6_eviction_counterexample :
    (findWorld (moveOutWorld sampleState.otherWorlds "alt") "alt").isSome
      = true ∧
    (findWorld ((setWorld { sampleState with
          otherWorlds := moveOutWorld sampleState.otherWorlds "alt" }
        (some sampleWorld2)).1.otherWorlds) "alt").isSome = true ∧
    (switchToOtherWorld sampleState "alt").toOption.isSome = true := by
  refine ⟨by simp [sampleState, moveOutWorld, findWorld], ?_, ?_⟩
  · rw [setWorld_otherWorlds]
    simp [sampleState, moveOutWorld, findWorld]
  · simp [switchToOtherWorld, sampleState, findWorld, Except.toOption]

/-- C6 (amended): on a present name, the cached World is moved out of its
entry and activation (`setWorld`) runs first, while the registry still holds
an entry — now with a null pointer — under the name; `setWorld` leaves the
registry untouched, and the entry is erased only after activation returns,
so the post-call registry has no entry under the name. -/
theorem c6_eviction_amended (s : GameState) (w : World) (name : String)
    (hkeys : (s.otherWorlds.map Prod.fst).Nodup)
    (hfind : findWorld s.otherWorlds name = some (some w)) :
    findWorld (moveOutWorld s.otherWorlds name) name = some none ∧
    (setWorld { s with otherWorlds := moveOutWorld s.otherWorlds name }
        (some w)).1.otherWorlds = moveOutWorld s.otherWorlds name ∧
    ((switchToOtherWorld s name).toOption.map fun p =>
        findWorld p.1.otherWorlds name) = some none := by
  have hkeys2 : ((moveOutWorld s.otherWorlds name).map Prod.fst).Nodup := by
    rw [map_fst_moveOutWorld]
    exact hkeys
  refine ⟨findWorld_moveOutWorld _ _ _ hfind, setWorld_otherWorlds _ _, ?_⟩
  simp [switchToOtherWorld, hfind, Except.toOption, setWorld_otherWorlds,
    findWorld_eraseWorld _ _ hkeys2]

/-- C6 (amended) witness: the "alt" entry of `sampleState`. -/
theorem c6_eviction_amended_witness :
    (sampleState.otherWorlds.map Prod.fst).Nodup ∧
    findWorld sampleState.otherWorlds "alt" = some (some sampleWorld2) ∧
    (findWorld (moveOutWorld sampleState.otherWorlds "alt") "alt"
        = some none ∧
     (setWorld { sampleState with
          otherWorlds := moveOutWorld sampleState.otherWorlds "alt" }
        (some sampleWorld2)).1.otherWorlds
        = moveOutWorld sampleState.otherWorlds "alt" ∧
     ((switchToOtherWorld sampleState "alt").toOption.map fun p =>
        findWorld p.1.otherWorlds "alt") = some none) :=
  ⟨by simp [sampleState], by simp [sampleState, findWorld],
   c6_eviction_amended sampleState sampleWorld2 "alt"
     (by simp [sampleState]) (by simp [sampleState, findWorld])⟩

end RadixEngine
